import Mathlib

/-
  Verification of the camera choreography and model-presentation engine of a
  portfolio single-page application.  The definitions below are shallow
  embeddings of the animation/state logic found in
  src/components/Hero/Hero.tsx and src/components/Projects/Projects.tsx.
  Scalar quantities that the source manipulates with exact decimal constants
  are modelled over the rationals; quantities that the source raises to real
  powers (frame-rate-independent decay factors) are modelled over the reals.
-/

namespace Portfolio

/-- A 3D vector with rational components, standing for THREE.Vector3 values
built from the decimal constants in the source. -/
structure Vec3 where
  x : ℚ
  y : ℚ
  z : ℚ
  deriving DecidableEq, Repr

/-- The extent of a bounding box as produced by THREE.Box3.getSize: the three
componentwise differences max - min, each nonnegative (and all zero for an
empty box). -/
structure BoxSize where
  x : ℚ
  y : ℚ
  z : ℚ
  deriving DecidableEq, Repr

/-- Hero.tsx lines 26-36 (Model): the bounding box of the loaded asset is
measured, and a uniform scale is derived so the largest dimension fits a
target size of 2.5; when the largest dimension is not positive the scale
falls back to 1. Source: `const s = Math.max(size.x, size.y, size.z);
const scale = s > 0 ? target / s : 1`. -/
def heroScaleFactor (size : BoxSize) : ℚ :=
  let target : ℚ := 2.5
  let s := max size.x (max size.y size.z)
  if s > 0 then target / s else 1

/-- Projects.tsx lines 113-122 (DarknessModel): the bounding box of the
loaded asset is measured and a uniform scale derived for a target size of 3;
the divisor is `Math.max(size.x, size.y, size.z) || 1`, i.e. the JS truthy
fallback substitutes 1 for a zero maximum dimension before dividing.
Source: `const maxDim = Math.max(size.x, size.y, size.z) || 1;
const target = 3; return { center: c, scale: target / maxDim }`. -/
def darknessScale (size : BoxSize) : ℚ :=
  let m := max size.x (max size.y size.z)
  let maxDim := if m = 0 then 1 else m
  let target : ℚ := 3
  target / maxDim

/-- A one-shot camera move request: destination position (named `to` in the
source), look-at target and field of view (Projects.tsx, the pendingMove
payload). -/
structure CameraMove where
  toPos : Vec3
  target : Vec3
  fov : ℚ
  deriving DecidableEq, Repr

/-- The selection-related state of the Projects view: the pending camera move
(if any), the move trigger counter, and the deadline (in ms) of the armed
inactivity-reset timer, if one is armed. -/
structure ProjState where
  pendingMove : Option CameraMove
  moveTrigger : ℕ
  resetDeadline : Option ℚ
  deriving DecidableEq, Repr

/-- Projects.tsx line 329: the intro start position. -/
def START_POS : Vec3 := ⟨-2.9, 1.01, 3.5⟩

/-- Projects.tsx line 330: the shared look-at target. -/
def TARGET : Vec3 := ⟨-0.07, -0.07, 0⟩

/-- Projects.tsx line 331: the default desktop end position. -/
def END_DESKTOP : Vec3 := ⟨-0.90, 0.35, 1.01⟩

/-- Projects.tsx line 332: the default mobile end position. -/
def END_MOBILE : Vec3 := ⟨-1.46, 0.63, 1.69⟩

/-- Projects.tsx lines 343-351 (scheduleReset): clear any armed reset timer
and arm a new one that fires 15000 ms from now. -/
def scheduleReset (now : ℚ) (s : ProjState) : ProjState :=
  { s with resetDeadline := some (now + 15000) }

/-- Projects.tsx lines 434-490: the desktop preset table, written in the
source as a chain of `if (i === k)` blocks for k = 0..7; any other index
selects no preset. -/
def desktopPreset (i : ℤ) : Option CameraMove :=
  if i = 0 then some ⟨⟨-0.21, 0.12, 0.51⟩, ⟨-0.41, 0.05, 0.35⟩, 50⟩
  else if i = 1 then some ⟨⟨-0.02, 0.12, 0.22⟩, ⟨-0.24, 0.04, 0.04⟩, 50⟩
  else if i = 2 then some ⟨⟨0.22, 0.12, -0.06⟩, ⟨-0.00, 0.04, -0.24⟩, 50⟩
  else if i = 3 then some ⟨⟨0.44, 0.12, -0.33⟩, ⟨0.22, 0.04, -0.51⟩, 50⟩
  else if i = 4 then some ⟨⟨0.71, 0.11, -0.70⟩, ⟨0.63, 0.08, -0.77⟩, 50⟩
  else if i = 5 then some ⟨⟨0.96, 0.12, -0.97⟩, ⟨0.74, 0.03, -1.15⟩, 50⟩
  else if i = 6 then some ⟨⟨1.19, 0.12, -1.25⟩, ⟨0.97, 0.03, -1.43⟩, 50⟩
  else if i = 7 then some ⟨⟨1.41, 0.12, -1.53⟩, ⟨1.20, 0.03, -1.71⟩, 50⟩
  else none

/-- Projects.tsx lines 408-420 (MOBILE_PRESETS): the mobile preset array;
`MOBILE_PRESETS[i]` is undefined for an index outside 0..7. -/
def mobilePreset (i : ℤ) : Option CameraMove :=
  if i = 0 then some ⟨⟨-0.22, 0.10, 0.51⟩, ⟨-0.45, 0.02, 0.32⟩, 50⟩
  else if i = 1 then some ⟨⟨0.01, 0.10, 0.24⟩, ⟨-0.22, 0.02, 0.05⟩, 50⟩
  else if i = 2 then some ⟨⟨0.23, 0.10, -0.04⟩, ⟨0.01, 0.02, -0.22⟩, 50⟩
  else if i = 3 then some ⟨⟨0.46, 0.10, -0.33⟩, ⟨0.24, 0.02, -0.50⟩, 50⟩
  else if i = 4 then some ⟨⟨0.74, 0.10, -0.69⟩, ⟨0.52, 0.03, -0.86⟩, 50⟩
  else if i = 5 then some ⟨⟨0.96, 0.10, -0.97⟩, ⟨0.74, 0.03, -1.14⟩, 50⟩
  else if i = 6 then some ⟨⟨1.18, 0.10, -1.25⟩, ⟨0.96, 0.03, -1.42⟩, 50⟩
  else if i = 7 then some ⟨⟨1.40, 0.10, -1.54⟩, ⟨1.18, 0.03, -1.71⟩, 50⟩
  else none

/-- Projects.tsx lines 423-494 (handleSelect): on mobile, look the index up
in MOBILE_PRESETS and, when a preset exists, publish it as the pending move
and bump the trigger; on desktop, the if-chain does the same for indices
0..7.  In every case the handler ends by calling scheduleReset. -/
def handleSelect (isMobile : Bool) (i : ℤ) (now : ℚ) (s : ProjState) :
    ProjState :=
  if isMobile then
    let s1 := match mobilePreset i with
      | some p => { s with pendingMove := some p,
                           moveTrigger := s.moveTrigger + 1 }
      | none => s
    scheduleReset now s1
  else
    let s1 := match desktopPreset i with
      | some p => { s with pendingMove := some p,
                           moveTrigger := s.moveTrigger + 1 }
      | none => s
    scheduleReset now s1

/-- Projects.tsx lines 345-350: the body of the inactivity timer.  When an
armed timer fires, the device class is re-read at that moment
(`const mobileNow = getIsMobile()`), one move to the corresponding default
end pose is published with the trigger bumped once, and the timer is spent
(nothing further is scheduled).  When no timer is armed nothing happens. -/
def fireReset (mobileNow : Bool) (s : ProjState) : ProjState :=
  match s.resetDeadline with
  | some _ =>
      { pendingMove :=
          some ⟨if mobileNow then END_MOBILE else END_DESKTOP, TARGET, 50⟩,
        moveTrigger := s.moveTrigger + 1,
        resetDeadline := none }
  | none => s

/-- Projects.tsx line 197 and 233: the shared cubic ease,
`t < 0.5 ? 4*t*t*t : 1 - Math.pow(-2*t + 2, 3) / 2`. -/
def easeInOutCubic (t : ℚ) : ℚ :=
  if t < 0.5 then 4 * t * t * t else 1 - (-2 * t + 2) ^ 3 / 2

/-- THREE.MathUtils.lerp over the rationals: `x + (y - x) * t`. -/
def lerpQ (a b k : ℚ) : ℚ := a + (b - a) * k

/-- THREE.Vector3.lerpVectors componentwise. -/
def lerpVec (a b : Vec3) (k : ℚ) : Vec3 :=
  ⟨lerpQ a.x b.x k, lerpQ a.y b.y k, lerpQ a.z b.z k⟩

/-- Projects.tsx lines 186-214 (CameraIntroMove): the camera position of the
intro move, sampled at `elapsedMs` milliseconds after the start, for a
duration given in seconds: `t = Math.min(1, (now - startTime) /
(duration * 1000)); k = easeInOutCubic(t);
camera.position.lerpVectors(start, end, k)`. -/
def introSample (a b : Vec3) (duration elapsedMs : ℚ) : Vec3 :=
  let t := min 1 (elapsedMs / (duration * 1000))
  lerpVec a b (easeInOutCubic t)

/-- C1 counterexample: the claim says every loaded asset falls back to a
scale factor of exactly 1 when the bounding box has zero extent, but the
DarknessModel adapter in Projects.tsx substitutes 1 for the zero divisor and
then still divides the target size 3 by it, so its fallback scale is 3, not
1. -/
theorem C1_counterexample :
    darknessScale ⟨0, 0, 0⟩ = 3 ∧ darknessScale ⟨0, 0, 0⟩ ≠ 1 := by
  norm_num [darknessScale]

/-- C1 (amended): for nonnegative bounding-box extents, both derived
normalization scale factors are strictly positive, and at zero extent
neither divides by zero: the Hero model falls back to exactly 1, while the
Projects darkness model substitutes divisor 1 and so falls back to its
target size 3. -/
theorem C1_scale_positive (size : BoxSize)
    (hx : 0 ≤ size.x) (_hy : 0 ≤ size.y) (_hz : 0 ≤ size.z) :
    0 < heroScaleFactor size ∧ 0 < darknessScale size ∧
    (max size.x (max size.y size.z) = 0 →
      heroScaleFactor size = 1 ∧ darknessScale size = 3) := by
  refine ⟨?_, ?_, fun h0 => ⟨?_, ?_⟩⟩
  · rw [heroScaleFactor]
    split_ifs with h
    · exact div_pos (by norm_num) h
    · norm_num
  · rw [darknessScale]
    split_ifs with h
    · norm_num
    · have hm : 0 ≤ max size.x (max size.y size.z) :=
        le_trans hx (le_max_left _ _)
      exact div_pos (by norm_num) (lt_of_le_of_ne hm (Ne.symm h))
  · norm_num [heroScaleFactor, h0]
  · norm_num [darknessScale, h0]

/-- C1 witness: the amended theorem applied to a degenerate (zero extent)
bounding box. -/
theorem C1_scale_positive_witness :
    0 < heroScaleFactor ⟨0, 0, 0⟩ ∧ 0 < darknessScale ⟨0, 0, 0⟩ ∧
    (max (0 : ℚ) (max 0 0) = 0 →
      heroScaleFactor ⟨0, 0, 0⟩ = 1 ∧ darknessScale ⟨0, 0, 0⟩ = 3) :=
  C1_scale_positive ⟨0, 0, 0⟩ le_rfl le_rfl le_rfl

/-- C2: on desktop, selecting menu item 0 publishes the pending move with
destination position (-0.21, 0.12, 0.51) and bumps the move trigger by one;
selecting index 0 again leaves the destination numerically unchanged but
bumps the trigger a second time. -/
theorem C2_desktop_select_index_zero (s : ProjState) (now now2 : ℚ) :
    (handleSelect false 0 now s).pendingMove =
      some ⟨⟨-0.21, 0.12, 0.51⟩, ⟨-0.41, 0.05, 0.35⟩, 50⟩ ∧
    (handleSelect false 0 now s).moveTrigger = s.moveTrigger + 1 ∧
    (handleSelect false 0 now2 (handleSelect false 0 now s)).pendingMove =
      (handleSelect false 0 now s).pendingMove ∧
    (handleSelect false 0 now2 (handleSelect false 0 now s)).moveTrigger =
      s.moveTrigger + 2 := by
  norm_num [handleSelect, desktopPreset, scheduleReset]

/-- C3: the intro move from START_POS to the desktop end position over 1.6
seconds samples exactly the start position at elapsed 0 ms, exactly the end
position at 1600 ms or later, and, since easeInOutCubic at one half equals
one half, exactly the midpoint (-1.9, 0.68, 2.255) at 800 ms. -/
theorem C3_intro_move_sampling :
    introSample START_POS END_DESKTOP 1.6 0 = START_POS ∧
    (∀ e : ℚ, 1600 ≤ e →
      introSample START_POS END_DESKTOP 1.6 e = END_DESKTOP) ∧
    easeInOutCubic (1 / 2) = 1 / 2 ∧
    introSample START_POS END_DESKTOP 1.6 800 =
      lerpVec START_POS END_DESKTOP (1 / 2) ∧
    lerpVec START_POS END_DESKTOP (1 / 2) = ⟨-1.9, 0.68, 2.255⟩ := by
  refine ⟨?_, ?_, ?_, ?_, ?_⟩
  · norm_num [introSample, START_POS, END_DESKTOP, lerpVec, lerpQ,
      easeInOutCubic]
  · intro e he
    have h1 : min 1 (e / ((1.6 : ℚ) * 1000)) = 1 := by
      have hd : (1 : ℚ) ≤ e / (1.6 * 1000) := by
        rw [le_div_iff₀ (by norm_num)]
        linarith
      exact min_eq_left hd
    simp only [introSample]
    rw [h1]
    norm_num [easeInOutCubic, lerpVec, lerpQ, START_POS, END_DESKTOP]
  · norm_num [easeInOutCubic]
  · norm_num [introSample, START_POS, END_DESKTOP, lerpVec, lerpQ,
      easeInOutCubic]
  · norm_num [lerpVec, lerpQ, START_POS, END_DESKTOP]

/-- C3 witness: sampling at a concrete elapsed time past the duration (2000
ms) yields exactly the end position. -/
theorem C3_intro_move_sampling_witness :
    introSample START_POS END_DESKTOP 1.6 2000 = END_DESKTOP :=
  C3_intro_move_sampling.2.1 2000 (by norm_num)

/-- Helper: an index outside 0..7 selects no desktop preset. -/
theorem desktopPreset_eq_none (i : ℤ) (h : i < 0 ∨ 8 ≤ i) :
    desktopPreset i = none := by
  rw [desktopPreset]
  split_ifs with h0 h1 h2 h3 h4 h5 h6 h7
  all_goals first
    | rfl
    | (exfalso; rcases h with h | h <;> omega)

/-- Helper: an index outside 0..7 selects no mobile preset. -/
theorem mobilePreset_eq_none (i : ℤ) (h : i < 0 ∨ 8 ≤ i) :
    mobilePreset i = none := by
  rw [mobilePreset]
  split_ifs with h0 h1 h2 h3 h4 h5 h6 h7
  all_goals first
    | rfl
    | (exfalso; rcases h with h | h <;> omega)

/-- C4: any menu selection arms the inactivity timer with deadline now +
15000 ms; when that armed timer fires with no further selection, exactly one
additional pending move is produced, targeting the default end pose for the
device class read at the moment of firing, with the trigger bumped once; a
repeated firing changes nothing further. -/
theorem C4_inactivity_reset (s : ProjState) (isMobile mobileNow : Bool)
    (i : ℤ) (now : ℚ) :
    (handleSelect isMobile i now s).resetDeadline = some (now + 15000) ∧
    (fireReset mobileNow (handleSelect isMobile i now s)).pendingMove =
      some ⟨if mobileNow then END_MOBILE else END_DESKTOP, TARGET, 50⟩ ∧
    (fireReset mobileNow (handleSelect isMobile i now s)).moveTrigger =
      (handleSelect isMobile i now s).moveTrigger + 1 ∧
    fireReset mobileNow
        (fireReset mobileNow (handleSelect isMobile i now s)) =
      fireReset mobileNow (handleSelect isMobile i now s) := by
  have hd : (handleSelect isMobile i now s).resetDeadline =
      some (now + 15000) := by
    cases isMobile <;> simp [handleSelect, scheduleReset]
  refine ⟨hd, ?_, ?_, ?_⟩
  · simp [fireReset, hd]
  · simp [fireReset, hd]
  · generalize handleSelect isMobile i now s = s1 at hd
    simp [fireReset, hd]

/-- C10: for a selection index outside 0..7, on either device class, the
handler changes neither the pending move nor the trigger counter, yet still
arms the 15 s inactivity timer, so its firing produces a reset move to the
default end pose even though no preset move was started. -/
theorem C10_out_of_range_select (s : ProjState) (isMobile mobileNow : Bool)
    (i : ℤ) (now : ℚ) (h : i < 0 ∨ 8 ≤ i) :
    (handleSelect isMobile i now s).pendingMove = s.pendingMove ∧
    (handleSelect isMobile i now s).moveTrigger = s.moveTrigger ∧
    (handleSelect isMobile i now s).resetDeadline = some (now + 15000) ∧
    (fireReset mobileNow (handleSelect isMobile i now s)).pendingMove =
      some ⟨if mobileNow then END_MOBILE else END_DESKTOP, TARGET, 50⟩ ∧
    (fireReset mobileNow (handleSelect isMobile i now s)).moveTrigger =
      s.moveTrigger + 1 := by
  have hdp := desktopPreset_eq_none i h
  have hmp := mobilePreset_eq_none i h
  have h1 : handleSelect isMobile i now s =
      { s with resetDeadline := some (now + 15000) } := by
    cases isMobile <;> simp [handleSelect, hdp, hmp, scheduleReset]
  rw [h1]
  refine ⟨rfl, rfl, rfl, ?_, ?_⟩ <;> simp [fireReset]

/-- C10 witness: selecting index 9 on desktop from the initial state leaves
the move state untouched but arms the timer, and the subsequent firing
produces the desktop default end pose move. -/
theorem C10_out_of_range_select_witness :
    (handleSelect false 9 0 ⟨none, 0, none⟩).pendingMove = none ∧
    (handleSelect false 9 0 ⟨none, 0, none⟩).moveTrigger = 0 ∧
    (handleSelect false 9 0 ⟨none, 0, none⟩).resetDeadline =
      some (0 + 15000) ∧
    (fireReset false (handleSelect false 9 0 ⟨none, 0, none⟩)).pendingMove =
      some ⟨END_DESKTOP, TARGET, 50⟩ ∧
    (fireReset false (handleSelect false 9 0 ⟨none, 0, none⟩)).moveTrigger =
      0 + 1 :=
  C10_out_of_range_select ⟨none, 0, none⟩ false false 9 0
    (Or.inr (by norm_num))

/-- A 2D pair of reals, standing for the {x, y} ref objects of Hero.tsx. -/
structure Vec2R where
  x : ℝ
  y : ℝ

/-- THREE.MathUtils.lerp over the reals: `x + (y - x) * t`. -/
noncomputable def lerpR (a b k : ℝ) : ℝ := a + (b - a) * k

/-- Hero.tsx lines 72-73: the per-frame friction factor, the friction base
raised to the real power 60·dt (the base is 0.92 in the source):
`const friction = Math.pow(frictionBase, 60 * dt)`. -/
noncomputable def frictionFactor (base dt : ℝ) : ℝ := base ^ (60 * dt)

/-- Hero.tsx lines 90-91: one friction decay step multiplies both
components of the spin velocity by the per-frame friction factor. -/
noncomputable def decaySpin (c : ℝ) (v : ℝ × ℝ) : ℝ × ℝ :=
  (v.1 * c, v.2 * c)

/-- Hero.tsx line 93: the spin speed, Math.hypot of the two velocity
components. -/
noncomputable def spinSpeed (v : ℝ × ℝ) : ℝ := Real.sqrt (v.1 ^ 2 + v.2 ^ 2)

/-- Hero.tsx line 105: the frame-rate-independent lerp factor used for the
reset ease, 1 - r^(60·dt): `const resetEase = 1 - Math.pow(0.01, 60 * dt)`,
generalized over the decay rate r. -/
noncomputable def frameLerpFactor (r dt : ℝ) : ℝ := 1 - r ^ (60 * dt)

/-- The speed is a square root, hence nonnegative. -/
theorem spinSpeed_nonneg (v : ℝ × ℝ) : 0 ≤ spinSpeed v :=
  Real.sqrt_nonneg _

/-- One decay step scales the speed by the factor. -/
theorem spinSpeed_decay (c : ℝ) (hc : 0 ≤ c) (v : ℝ × ℝ) :
    spinSpeed (decaySpin c v) = c * spinSpeed v := by
  simp only [spinSpeed, decaySpin]
  rw [show (v.1 * c) ^ 2 + (v.2 * c) ^ 2
      = c ^ 2 * (v.1 ^ 2 + v.2 ^ 2) by ring]
  rw [Real.sqrt_mul (sq_nonneg c), Real.sqrt_sq hc]

/-- n decay steps scale the speed by the factor to the n-th power. -/
theorem spinSpeed_iterate (c : ℝ) (hc : 0 ≤ c) (v : ℝ × ℝ) (n : ℕ) :
    spinSpeed ((decaySpin c)^[n] v) = c ^ n * spinSpeed v := by
  induction n with
  | zero => simp
  | succ k ih =>
      rw [Function.iterate_succ_apply', spinSpeed_decay c hc, ih]
      ring

/-- C5: for any friction base in (0,1) and positive dt, the per-frame
factor is in (0,1), so repeated decay steps make the spin speed
nonincreasing (strictly decreasing while nonzero) and drive it below any
positive threshold from some step count on. -/
theorem C5_spin_velocity_decay (f dt : ℝ) (hf0 : 0 < f) (hf1 : f < 1)
    (hdt : 0 < dt) (v : ℝ × ℝ) :
    (∀ n : ℕ, spinSpeed ((decaySpin (frictionFactor f dt))^[n + 1] v) ≤
      spinSpeed ((decaySpin (frictionFactor f dt))^[n] v)) ∧
    (spinSpeed v ≠ 0 → ∀ n : ℕ,
      spinSpeed ((decaySpin (frictionFactor f dt))^[n + 1] v) <
        spinSpeed ((decaySpin (frictionFactor f dt))^[n] v)) ∧
    (∀ ε : ℝ, 0 < ε → ∃ N : ℕ, ∀ n ≥ N,
      spinSpeed ((decaySpin (frictionFactor f dt))^[n] v) < ε) := by
  have hc0 : 0 < frictionFactor f dt := Real.rpow_pos_of_pos hf0 _
  have hc1 : frictionFactor f dt < 1 :=
    Real.rpow_lt_one hf0.le hf1 (by linarith)
  have hS : 0 ≤ spinSpeed v := spinSpeed_nonneg v
  refine ⟨?_, ?_, ?_⟩
  · intro n
    rw [spinSpeed_iterate _ hc0.le, spinSpeed_iterate _ hc0.le]
    exact mul_le_mul_of_nonneg_right
      (pow_le_pow_of_le_one hc0.le hc1.le (Nat.le_succ n)) hS
  · intro hSne n
    have hSpos : 0 < spinSpeed v := lt_of_le_of_ne hS (Ne.symm hSne)
    rw [spinSpeed_iterate _ hc0.le, spinSpeed_iterate _ hc0.le]
    have hpos : 0 < frictionFactor f dt ^ n * spinSpeed v :=
      mul_pos (pow_pos hc0 n) hSpos
    calc frictionFactor f dt ^ (n + 1) * spinSpeed v
        = frictionFactor f dt * (frictionFactor f dt ^ n * spinSpeed v) :=
          by ring
      _ < 1 * (frictionFactor f dt ^ n * spinSpeed v) :=
          mul_lt_mul_of_pos_right hc1 hpos
      _ = frictionFactor f dt ^ n * spinSpeed v := one_mul _
  · intro ε hε
    obtain ⟨N, hN⟩ := exists_pow_lt_of_lt_one
      (div_pos hε (by linarith : (0 : ℝ) < spinSpeed v + 1)) hc1
    refine ⟨N, fun n hn => ?_⟩
    rw [spinSpeed_iterate _ hc0.le]
    have h1 : frictionFactor f dt ^ n ≤ frictionFactor f dt ^ N :=
      pow_le_pow_of_le_one hc0.le hc1.le hn
    have h2 : frictionFactor f dt ^ n * spinSpeed v ≤
        frictionFactor f dt ^ N * (spinSpeed v + 1) :=
      mul_le_mul h1 (by linarith) hS (pow_nonneg hc0.le N)
    have h3 : frictionFactor f dt ^ N * (spinSpeed v + 1) < ε :=
      (lt_div_iff₀ (by linarith)).mp hN
    linarith

/-- C5 witness: with friction base one half and dt of one frame, starting
from velocity (3, 4), some step count brings the speed below 1. -/
theorem C5_spin_velocity_decay_witness :
    ∃ N : ℕ, ∀ n ≥ N,
      spinSpeed ((decaySpin (frictionFactor (1 / 2) (1 / 60)))^[n] (3, 4))
        < 1 :=
  (C5_spin_velocity_decay (1 / 2) (1 / 60) (by norm_num) (by norm_num)
    (by norm_num) (3, 4)).2.2 1 (by norm_num)

/-- C6: for every decay rate in (0,1), the frame-independent lerp factor
1 - r^(60·dt) is nondecreasing in dt on dt ≥ 0 and stays in [0, 1). -/
theorem C6_frame_lerp_factor (r : ℝ) (hr0 : 0 < r) (hr1 : r < 1) :
    (∀ dt1 dt2 : ℝ, 0 ≤ dt1 → dt1 ≤ dt2 →
      frameLerpFactor r dt1 ≤ frameLerpFactor r dt2) ∧
    (∀ dt : ℝ, 0 ≤ dt →
      0 ≤ frameLerpFactor r dt ∧ frameLerpFactor r dt < 1) := by
  constructor
  · intro dt1 dt2 _h1 h12
    have h := Real.rpow_le_rpow_of_exponent_ge hr0 hr1.le
      (by linarith : 60 * dt1 ≤ 60 * dt2)
    simp only [frameLerpFactor]
    linarith
  · intro dt hdt
    have h1 : r ^ (60 * dt) ≤ 1 :=
      Real.rpow_le_one hr0.le hr1.le (by linarith)
    have h2 : 0 < r ^ (60 * dt) := Real.rpow_pos_of_pos hr0 _
    constructor <;> simp only [frameLerpFactor] <;> linarith

/-- C6 witness: at decay rate one half and dt = 0 the factor lies in
[0, 1). -/
theorem C6_frame_lerp_factor_witness :
    0 ≤ frameLerpFactor (1 / 2) 0 ∧ frameLerpFactor (1 / 2) 0 < 1 :=
  (C6_frame_lerp_factor (1 / 2) (by norm_num) (by norm_num)).2 0 le_rfl

/-- The per-frame state of the Hero Model component: base rotation, spin
offset, spin velocity (the spinRef), pointer target position, the dragging
flag, the activity timestamp and resetting flag, the rendered group
rotation and position, and the bounce oscillator. -/
structure HeroState where
  baseRot : Vec2R
  spinOffset : Vec2R
  spinVel : Vec2R
  targetPos : Vec2R
  dragging : Bool
  lastActive : ℝ
  resetting : Bool
  rot : Vec2R
  pos : Vec2R
  bounceY : ℝ
  bounceV : ℝ

/-- Hero.tsx lines 67-135 (Model.useFrame): one frame update.  The delta is
clamped to 0.05 s; in auto-spin mode the base rotation advances around y,
the x tilt and target position relax toward zero, dragging is forced off
and the spin velocity zeroed; then the spin offset accumulates the
velocity, the velocity decays by the friction factor, activity is detected
from dragging or speed, the idle reset decays the spin offset (snapping to
zero below 1e-4), the rendered rotation and position blend toward the
desired values, and the bounce spring advances one semi-implicit Euler
step. -/
noncomputable def frameStep (autoSpin : Bool) (delta now : ℝ)
    (s : HeroState) : HeroState :=
  let dt := min delta 0.05
  let friction := frictionFactor 0.92 dt
  let easeP := 1 - (0.0001 : ℝ) ^ dt
  let baseRot1 : Vec2R := if autoSpin then
      ⟨lerpR s.baseRot.x 0 easeP, s.baseRot.y + 0.6 * dt⟩
    else s.baseRot
  let targetPos1 : Vec2R := if autoSpin then
      ⟨lerpR s.targetPos.x 0 easeP, lerpR s.targetPos.y 0 easeP⟩
    else s.targetPos
  let dragging1 := if autoSpin then false else s.dragging
  let spinVel1 : Vec2R := if autoSpin then ⟨0, 0⟩ else s.spinVel
  let spinOffset1 : Vec2R :=
    ⟨s.spinOffset.x + spinVel1.x, s.spinOffset.y + spinVel1.y⟩
  let spinVel2 : Vec2R := ⟨spinVel1.x * friction, spinVel1.y * friction⟩
  let speed := spinSpeed (spinVel2.x, spinVel2.y)
  let active := dragging1 = true ∨ speed > 0.0002
  let resetting1 := if active then false
    else if now - s.lastActive > 1000 then true else s.resetting
  let lastActive1 := if active then now else s.lastActive
  let resetEase := frameLerpFactor 0.01 dt
  let ox := lerpR spinOffset1.x 0 resetEase
  let oy := lerpR spinOffset1.y 0 resetEase
  let spinOffset2 : Vec2R := if resetting1 then
      (if |ox| < 1e-4 ∧ |oy| < 1e-4 then ⟨0, 0⟩ else ⟨ox, oy⟩)
    else spinOffset1
  let resetting2 := if resetting1 then
      (if |ox| < 1e-4 ∧ |oy| < 1e-4 then false else true)
    else resetting1
  let desiredX := baseRot1.x + spinOffset2.x
  let desiredY := baseRot1.y + spinOffset2.y
  let rot1 : Vec2R :=
    ⟨lerpR s.rot.x desiredX easeP, lerpR s.rot.y desiredY easeP⟩
  let posX1 := lerpR s.pos.x targetPos1.x easeP
  let posY1 := lerpR s.pos.y targetPos1.y easeP
  let acc := -40 * s.bounceY - 6 * s.bounceV
  let bounceV1 := s.bounceV + acc * dt
  let bounceY1 := s.bounceY + bounceV1 * dt
  { baseRot := baseRot1, spinOffset := spinOffset2, spinVel := spinVel2,
    targetPos := targetPos1, dragging := dragging1,
    lastActive := lastActive1, resetting := resetting2, rot := rot1,
    pos := ⟨posX1, posY1 + bounceY1 * 0.05⟩,
    bounceY := bounceY1, bounceV := bounceV1 }

/-- Hero.tsx lines 58-64: the mouse-move effect writes the base rotation
and target position from the normalized pointer position, except that when
auto-spin is active it returns without touching any state. -/
noncomputable def heroMouseUpdate (autoSpin : Bool) (mx mouseY : ℝ)
    (s : HeroState) : HeroState :=
  if autoSpin then s
  else { s with
    baseRot := ⟨10 * (Real.pi / 180) * mouseY, 20 * (Real.pi / 180) * mx⟩,
    targetPos := ⟨0.1 * mx, 0.05 * mouseY⟩ }

/-- C7: whenever auto-spin mode is on, every frame update forces the
dragging flag to false and both spin velocity components to zero (the
velocity is zeroed before the friction multiply, so it ends the frame at
exactly zero), and the pointer-move handler leaves the state untouched, so
manual pointer control is inert and auto-spin alone drives the base
rotation. -/
theorem C7_autospin_exclusive (delta now mx mouseY : ℝ) (s : HeroState) :
    (frameStep true delta now s).dragging = false ∧
    (frameStep true delta now s).spinVel.x = 0 ∧
    (frameStep true delta now s).spinVel.y = 0 ∧
    heroMouseUpdate true mx mouseY s = s := by
  refine ⟨?_, ?_, ?_, ?_⟩ <;> simp [frameStep, heroMouseUpdate]

/-- Hero.tsx line 131: the base scale, the normalization scale factor times
SCALE_MULTIPLIER = 2. -/
def baseScaleQ (scaleFactor : ℚ) : ℚ := scaleFactor * 2

/-- Hero.tsx lines 130-133: the rendered uniform scale, the base scale
boosted one-sidedly by the bounce displacement:
`const scaleBoost = 1 + Math.max(0, b.y) * 0.22;
g.scale.set(baseScale * scaleBoost, ...)`. -/
def renderedScale (scaleFactor disp : ℚ) : ℚ :=
  baseScaleQ scaleFactor * (1 + max 0 disp * 0.22)

/-- C9: the rendered uniform scale equals the base scale times
1 + max(0, displacement) · 0.22, and for a nonnegative scale factor it is
never below the base scale, whatever the sign of the displacement. -/
theorem C9_bounce_scale (scaleFactor disp : ℚ) (h : 0 ≤ scaleFactor) :
    renderedScale scaleFactor disp =
      baseScaleQ scaleFactor * (1 + max 0 disp * 0.22) ∧
    baseScaleQ scaleFactor ≤ renderedScale scaleFactor disp := by
  refine ⟨rfl, ?_⟩
  have h1 : (0 : ℚ) ≤ max 0 disp := le_max_left _ _
  have h2 : (1 : ℚ) ≤ 1 + max 0 disp * 0.22 := by nlinarith
  have h0 : (0 : ℚ) ≤ baseScaleQ scaleFactor := by
    rw [baseScaleQ]; linarith
  calc baseScaleQ scaleFactor
      = baseScaleQ scaleFactor * 1 := (mul_one _).symm
    _ ≤ baseScaleQ scaleFactor * (1 + max 0 disp * 0.22) :=
        mul_le_mul_of_nonneg_left h2 h0
    _ = renderedScale scaleFactor disp := rfl

/-- C9 witness: with scale factor 1 and a negative displacement the
rendered scale equals and does not drop below the base scale. -/
theorem C9_bounce_scale_witness :
    renderedScale 1 (-5) = baseScaleQ 1 * (1 + max 0 (-5) * 0.22) ∧
    baseScaleQ 1 ≤ renderedScale 1 (-5) :=
  C9_bounce_scale 1 (-5) (by norm_num)

/-- The easter-egg trigger state of the Hero overlay: the bounce counter,
the click-timestamp buffer, whether the overlay is currently shown, how
many times the overlay trigger has fired, and the deadline of the pending
hide timer, if any. -/
structure ClickState where
  bounceTick : ℕ
  clickTimes : List ℚ
  showEaster : Bool
  easterShows : ℕ
  hideDeadline : Option ℚ
  deriving DecidableEq, Repr

/-- The state at mount: no clicks recorded, overlay hidden, never shown. -/
def initClickState : ClickState := ⟨0, [], false, 0, none⟩

/-- Hero.tsx lines 347-359 (the hidden trigger button onClick): every click
bumps the bounce counter; the buffer is filtered to clicks within the last
800 ms and the new timestamp pushed; when 3 or more remain, the overlay is
shown, the buffer cleared, and a hide is scheduled 1500 ms later. -/
def heroClick (now : ℚ) (s : ClickState) : ClickState :=
  let times := (s.clickTimes.filter fun t => decide (now - t < 800)) ++ [now]
  if 3 ≤ times.length then
    { bounceTick := s.bounceTick + 1, clickTimes := [], showEaster := true,
      easterShows := s.easterShows + 1, hideDeadline := some (now + 1500) }
  else
    { s with bounceTick := s.bounceTick + 1, clickTimes := times }

/-- C8: three clicks within an 800 ms window show the overlay exactly once
and clear the click buffer; a fourth click within 800 ms of the third does
not fire the trigger a second time, and it lands inside the 1500 ms
visibility window of the first showing. -/
theorem C8_triple_click (t1 t2 t3 t4 : ℚ)
    (h12 : t1 ≤ t2) (h23 : t2 ≤ t3) (h31 : t3 - t1 < 800)
    (_h34 : t3 ≤ t4) (h43 : t4 - t3 < 800) :
    (heroClick t3 (heroClick t2 (heroClick t1
        initClickState))).easterShows = 1 ∧
    (heroClick t3 (heroClick t2 (heroClick t1
        initClickState))).showEaster = true ∧
    (heroClick t3 (heroClick t2 (heroClick t1
        initClickState))).clickTimes = [] ∧
    (heroClick t4 (heroClick t3 (heroClick t2 (heroClick t1
        initClickState)))).easterShows = 1 ∧
    (heroClick t4 (heroClick t3 (heroClick t2 (heroClick t1
        initClickState)))).showEaster = true ∧
    (heroClick t4 (heroClick t3 (heroClick t2 (heroClick t1
        initClickState)))).hideDeadline = some (t3 + 1500) ∧
    t4 < t3 + 1500 := by
  have h21 : t2 - t1 < 800 := by linarith
  have h32 : t3 - t2 < 800 := by linarith
  have e1 : heroClick t1 initClickState =
      { bounceTick := 1, clickTimes := [t1], showEaster := false,
        easterShows := 0, hideDeadline := none } := by
    simp [heroClick, initClickState]
  have e2 : heroClick t2 (heroClick t1 initClickState) =
      { bounceTick := 2, clickTimes := [t1, t2], showEaster := false,
        easterShows := 0, hideDeadline := none } := by
    rw [e1]
    simp [heroClick, h21]
  have e3 : heroClick t3 (heroClick t2 (heroClick t1 initClickState)) =
      { bounceTick := 3, clickTimes := [], showEaster := true,
        easterShows := 1, hideDeadline := some (t3 + 1500) } := by
    rw [e2]
    simp [heroClick, h31, h32]
  have e4 : heroClick t4 (heroClick t3 (heroClick t2 (heroClick t1
      initClickState))) =
      { bounceTick := 4, clickTimes := [t4], showEaster := true,
        easterShows := 1, hideDeadline := some (t3 + 1500) } := by
    rw [e3]
    simp [heroClick]
  rw [e4, e3]
  refine ⟨rfl, rfl, rfl, rfl, rfl, rfl, by linarith⟩

/-- C8 witness: concrete clicks at 0, 100, 200 and 300 ms. -/
theorem C8_triple_click_witness :
    (heroClick 200 (heroClick 100 (heroClick 0
        initClickState))).easterShows = 1 ∧
    (heroClick 200 (heroClick 100 (heroClick 0
        initClickState))).showEaster = true ∧
    (heroClick 200 (heroClick 100 (heroClick 0
        initClickState))).clickTimes = [] ∧
    (heroClick 300 (heroClick 200 (heroClick 100 (heroClick 0
        initClickState)))).easterShows = 1 ∧
    (heroClick 300 (heroClick 200 (heroClick 100 (heroClick 0
        initClickState)))).showEaster = true ∧
    (heroClick 300 (heroClick 200 (heroClick 100 (heroClick 0
        initClickState)))).hideDeadline = some (200 + 1500) ∧
    (300 : ℚ) < 200 + 1500 :=
  C8_triple_click 0 100 200 300 (by norm_num) (by norm_num) (by norm_num)
    (by norm_num) (by norm_num)

end Portfolio
